import Mathlib

/-!
Shallow embedding of `src/host.rs` of the `vst2` crate: the VST 2.4 host side.

The embedded code covers loading a native plugin library, instantiating a
plugin through its `VSTPluginMain` entry point, the global staging slot
`load_pointer` used to reach the host during bootstrap, the callback bridge
`callback_wrapper`, host-to-plugin dispatch, snapshot construction in
`PluginInstance::new`, and the `Drop` teardown.

Modelling conventions:
* Raw pointers and `usize` values are `Nat`; `0` is the null pointer.
* `f32` values are carried as opaque tokens (`F32 := Nat`): `host.rs` never
  computes with an `f32`, it only forwards the `opt` argument across the
  boundary, so only their identity matters.
* Rust panics are modelled as the `Except.error` side of a result; a panic
  aborts the rest of the surrounding computation, exactly as unwinding does.
* The mutable process state visible to `host.rs` (the `load_pointer` static,
  the `AEffect` records, the boxed host handles, lock poisoning) is an
  explicit `World` value threaded through the operations.
* Each host-to-plugin dispatch that actually reaches the plugin is recorded
  in a trace of raw `i32` opcode numbers, so lifetime counting claims can be
  stated about the sequence the plugin observes.
-/

namespace Vst2Host

/-- Raw pointer / `usize` values; `0` is the null pointer. -/
abbrev Ptr := Nat

/-- Opaque token standing for an `f32` crossing the ABI boundary; `host.rs`
only forwards these values, never computes with them. -/
abbrev F32 := Nat

/-- Modelled from the spec: the fixed-capacity product-name buffer size
(`MAX_PRODUCT_STR_LEN` of `api::consts`, not under `src/`). -/
def MAX_PRODUCT_STR_LEN : Nat := 64

/-- Modelled from the spec: the fixed-capacity vendor-name buffer size
(`MAX_VENDOR_STR_LEN` of `api::consts`, not under `src/`). -/
def MAX_VENDOR_STR_LEN : Nat := 64

/-- Modelled from the spec: the `PROGRAM_CHUNKS` capability flag bit of
`api::flags` (not under `src/`); tested by bitwise intersection. -/
def PROGRAM_CHUNKS : Nat := 32

/-- Modelled from the spec: the `CAN_DOUBLE_REPLACING` capability flag bit of
`api::flags` (not under `src/`). -/
def CAN_DOUBLE_REPLACING : Nat := 4096

/-- Modelled from the spec: the `NO_SOUND_IN_STOP` capability flag bit of
`api::flags` (not under `src/`). -/
def NO_SOUND_IN_STOP : Nat := 512

/-- Capability-flag test: bitwise intersection with a fixed flag bit is
nonzero (`flags.intersects(...)` on the bitflags value obtained by
`Plugin::from_bits_truncate(effect.flags)`). -/
def testFlag (flags : Nat) (bit : Nat) : Bool :=
  decide (flags.land bit ≠ 0)

/-- Modelled from the spec: the plugin Descriptor (`AEffect` of `api.rs`, not
under `src/`), restricted to exactly the fields `host.rs` reads or writes:
the counts, identifiers, version, initial delay and flag bits copied into the
Info Snapshot, the opaque reserved slot (`reserved1`) used to stash the Host
Handle (`0` = unpopulated), and the dispatcher function-pointer value
(`0` = null). -/
structure AEffect where
  numPrograms : Int
  numParams : Int
  numInputs : Int
  numOutputs : Int
  uniqueId : Int
  version : Int
  initialDelay : Int
  flags : Nat
  reserved1 : Ptr
  dispatcher : Ptr
  deriving Repr, DecidableEq, Inhabited

/-- Modelled from the spec: the plugin category (`plugin::Category`, not under
`src/`). The category vocabulary is declared out of scope by the spec, so the
reply integer is carried verbatim. -/
structure Category where
  code : Int
  deriving Repr, DecidableEq, Inhabited

/-- Modelled from the spec: `Category::from` (not under `src/`) maps the
integer reply of the category opcode into the category vocabulary; the
vocabulary itself is out of scope, so the code is kept as-is. -/
def Category.fromCode (i : Int) : Category :=
  ⟨i⟩

/-- Modelled from the spec: the Info Snapshot (`plugin::Info`, not under
`src/`), an immutable host-owned copy of the Descriptor fields `host.rs`
copies at instantiation time. Strings are byte lists. -/
structure Info where
  name : List Nat
  vendor : List Nat
  presets : Int
  parameters : Int
  inputs : Int
  outputs : Int
  unique_id : Int
  version : Int
  category : Category
  initial_delay : Int
  preset_chunks : Bool
  f64_precision : Bool
  silent_when_stopped : Bool
  deriving Repr, DecidableEq, Inhabited

/-- The host-to-plugin opcodes of `plugin::OpCode` that `host.rs` actually
sends; modelled from the spec (the enum lives in `plugin.rs`, not under
`src/`). -/
inductive PluginOpCode where
  | Initialize
  | Shutdown
  | GetProductName
  | GetVendorName
  | GetCategory
  deriving Repr, DecidableEq

/-- Modelled from the spec: the protocol-fixed `i32` value of each opcode
(`opcode.into()` through `impl_clike!`); the values are fixed by the external
VST 2.4 protocol. -/
def PluginOpCode.toI32 : PluginOpCode → Int
  | PluginOpCode.Initialize => 0
  | PluginOpCode.Shutdown => 1
  | PluginOpCode.GetCategory => 35
  | PluginOpCode.GetVendorName => 47
  | PluginOpCode.GetProductName => 48

/-- All possible errors that can occur when loading a VST plugin
(`PluginLoadError`, host.rs:81-93). -/
inductive PluginLoadError where
  | InvalidPath
  | NotAPlugin
  | InstanceFailed
  deriving Repr, DecidableEq

/-- A user-supplied object implementing the `Host` trait, abstracted to the
reply it produces for each plugin-to-host call; `interfaces::host_dispatch`
(not under `src/`) is what turns an opcode into such a reply. -/
structure HostObj where
  replyTo : Ptr → Int → Int → Int → Ptr → F32 → Int

/-- Modelled from the spec: `interfaces::host_dispatch` (not under `src/`)
translates the opcode into a call on the Host capability and returns its
reply, with a neutral reply for opcodes the host does not handle; modelled as
the host object's reply map. -/
def host_dispatch (h : HostObj) (effect : Ptr) (opcode : Int) (index : Int)
    (value : Int) (p : Ptr) (opt : F32) : Int :=
  h.replyTo effect opcode index value p opt

/-- The mutable process state visible to `host.rs`: the global staging slot
(the `load_pointer` static, host.rs:324), the heap of Descriptor records, the
heap of boxed host handles (pointer value of a `Box<Arc<Mutex<T>>>` mapped to
the identity of the host it refers to), which host locks are currently
poisoned, and an allocation counter for fresh box pointers. -/
structure World where
  load_pointer : Ptr
  effects : Ptr → AEffect
  boxes : Ptr → Nat
  poisoned : Nat → Bool
  nextPtr : Ptr

/-- Pointwise heap update. -/
def upd {β : Type} (f : Ptr → β) (x : Ptr) (v : β) : Ptr → β :=
  fun y => if y = x then v else f y

/-- Heap allocation of a box holding a clone of the Host Handle
(`Box::new(self.host.clone())`): returns a fresh non-null pointer recorded in
the box heap. -/
def allocBox (w : World) (hid : Nat) : Ptr × World :=
  (w.nextPtr + 1,
   { w with boxes := upd w.boxes (w.nextPtr + 1) hid, nextPtr := w.nextPtr + 1 })

/-- Which pointer the Callback Bridge dereferences to reach the boxed Host
Handle: the condition of `callback_wrapper` (host.rs:335 and 343-345). If the
effect pointer is non-null and its reserved slot is populated the reserved
slot is used; otherwise the staging slot `load_pointer` is used. -/
def resolve_host (w : World) (effect : Ptr) : Ptr :=
  if effect ≠ 0 ∧ (w.effects effect).reserved1 ≠ 0 then
    (w.effects effect).reserved1
  else
    w.load_pointer

/-- One branch body of `callback_wrapper`: dereference the resolved box,
`lock().unwrap()` the host mutex, and forward to
`interfaces::host_dispatch`. A poisoned lock makes `unwrap` panic; the panic
is not caught anywhere on this path, so it is returned as `Except.error` and
unwinds out of the bridge. -/
def lockAndDispatch (hosts : Nat → HostObj) (w : World) (hostPtr : Ptr)
    (effect : Ptr) (opcode : Int) (index : Int) (value : Int) (p : Ptr)
    (opt : F32) : Except String Int :=
  let hid := w.boxes hostPtr
  if w.poisoned hid then
    Except.error "PoisonError"
  else
    Except.ok (host_dispatch (hosts hid) effect opcode index value p opt)

/-- `callback_wrapper` (host.rs:327-351): the function handed to the plugin's
entry point. Resolves the Host Handle from the Descriptor's reserved slot
when the effect pointer is non-null and the slot is populated, and from the
staging slot `load_pointer` otherwise, then locks the host and forwards the
call. `hosts` maps host identities to the host objects they denote. -/
def callback_wrapper (hosts : Nat → HostObj) (w : World) (effect : Ptr)
    (opcode : Int) (index : Int) (value : Int) (p : Ptr) (opt : F32) :
    Except String Int :=
  if effect ≠ 0 ∧ (w.effects effect).reserved1 ≠ 0 then
    lockAndDispatch hosts w ((w.effects effect).reserved1) effect opcode index
      value p opt
  else
    lockAndDispatch hosts w w.load_pointer effect opcode index value p opt

/-- The behavior of the loaded plugin's native code as visible through the
entry point and the Descriptor's dispatcher function-pointer: the Descriptor
pointer `VSTPluginMain` returns (`0` = null), the reply function the
dispatcher pointer refers to, and the bytes the plugin writes into a
caller-supplied buffer for each string-returning opcode number. -/
structure PluginCode where
  mainReturns : Ptr
  dispatcherImpl : Ptr → Int → Int → Int → Ptr → F32 → Int
  writes : Int → List Nat

/-- A native shared library as seen through `dylib::DynamicLibrary`: whether
`open` succeeds at the given path, the exported symbol table, and the
identity of the mapped code object. -/
structure NativeLibrary where
  openable : Bool
  symbols : String → Option Ptr
  libId : Nat

/-- `PluginLoader` (host.rs:117-121): the resolved entry-point pointer, the
shared Library Handle, and the Host Handle (identified by the host id the
`Arc<Mutex<T>>` refers to). -/
structure PluginLoader where
  main : Ptr
  lib : Nat
  host : Nat
  deriving Repr, DecidableEq

/-- `PluginLoader::load` (host.rs:180-199): open the library at the path
(failure is `InvalidPath`), then resolve the `VSTPluginMain` entry symbol
(absence is `NotAPlugin`). -/
def PluginLoader.load (lib : NativeLibrary) (host : Nat) :
    Except PluginLoadError PluginLoader :=
  if lib.openable then
    match lib.symbols "VSTPluginMain" with
    | some m => Except.ok { main := m, lib := lib.libId, host := host }
    | none => Except.error PluginLoadError.NotAPlugin
  else
    Except.error PluginLoadError.InvalidPath

/-- `PluginInstance` (host.rs:125-129): the Descriptor pointer, the shared
Library Handle, and the Info Snapshot. -/
structure PluginInstance where
  effect : Ptr
  lib : Nat
  info : Info
  deriving Repr, DecidableEq

/-- `PluginInstance::dispatch` (host.rs:274-288): read the Descriptor's
dispatcher function-pointer; when it is null the call panics with
"Plugin was not loaded correctly." (the `Except.error` side; the plugin is
never invoked, so the trace is empty). Otherwise the plugin's dispatcher runs
synchronously on the five arguments plus the Descriptor pointer itself and
its reply is returned unmodified; the delivered opcode number is recorded in
the trace. -/
def PluginInstance.dispatch (inst : PluginInstance) (code : PluginCode)
    (w : World) (opcode : PluginOpCode) (index : Int) (value : Int) (p : Ptr)
    (opt : F32) : Except String Int × List Int :=
  if (w.effects inst.effect).dispatcher = 0 then
    (Except.error "Plugin was not loaded correctly.", [])
  else
    (Except.ok (code.dispatcherImpl inst.effect (PluginOpCode.toI32 opcode)
        index value p opt),
     [PluginOpCode.toI32 opcode])

/-- The fixed-capacity string buffer after the plugin writes `written` into
it: the written bytes clipped to the capacity, over an initially zeroed
buffer of `max` bytes (`vec![0; max]`). -/
def bufferAfterWrite (written : List Nat) (max : Nat) : List Nat :=
  written.take max ++ List.replicate (max - written.length) 0

/-- `PluginInstance::read_string` (host.rs:290-294): allocate a zeroed buffer
of `max` bytes, dispatch the opcode with the buffer's address, then keep the
buffer content up to the first null terminator. The buffer address is the
next free heap location; the temporary vector is freed before returning, so
the world is unchanged. A panic in `dispatch` propagates. -/
def PluginInstance.read_string (inst : PluginInstance) (code : PluginCode)
    (w : World) (opcode : PluginOpCode) (max : Nat) :
    Except String (List Nat) × List Int :=
  match inst.dispatch code w opcode 0 0 (w.nextPtr + 1) 0 with
  | (Except.error e, t) => (Except.error e, t)
  | (Except.ok _, t) =>
      (Except.ok ((bufferAfterWrite (code.writes (PluginOpCode.toI32 opcode))
          max).takeWhile (fun c => c ≠ 0)), t)

/-- `PluginInstance::opcode` (host.rs:296-298): dispatch with zero index,
value, null pointer and zero opt. -/
def PluginInstance.opcode (inst : PluginInstance) (code : PluginCode)
    (w : World) (op : PluginOpCode) : Except String Int × List Int :=
  inst.dispatch code w op 0 0 0 0

/-- `PluginInstance::new` (host.rs:232-271): build the instance with a default
snapshot, then fill the Info Snapshot by reading the Descriptor's fields and
dispatching the two name opcodes and the category opcode. A panic in any
dispatch propagates (the trace keeps what was delivered before it). -/
def PluginInstance.new (effect : Ptr) (lib : Nat) (code : PluginCode)
    (w : World) : Except String PluginInstance × List Int :=
  let plug : PluginInstance := { effect := effect, lib := lib, info := default }
  let e := w.effects effect
  match PluginInstance.read_string plug code w PluginOpCode.GetProductName
      MAX_PRODUCT_STR_LEN with
  | (Except.error msg, t1) => (Except.error msg, t1)
  | (Except.ok nm, t1) =>
    match PluginInstance.read_string plug code w PluginOpCode.GetVendorName
        MAX_VENDOR_STR_LEN with
    | (Except.error msg, t2) => (Except.error msg, t1 ++ t2)
    | (Except.ok vd, t2) =>
      match PluginInstance.opcode plug code w PluginOpCode.GetCategory with
      | (Except.error msg, t3) => (Except.error msg, t1 ++ (t2 ++ t3))
      | (Except.ok cat, t3) =>
          (Except.ok { plug with info :=
            { name := nm
              vendor := vd
              presets := e.numPrograms
              parameters := e.numParams
              inputs := e.numInputs
              outputs := e.numOutputs
              unique_id := e.uniqueId
              version := e.version
              category := Category.fromCode cat
              initial_delay := e.initialDelay
              preset_chunks := testFlag e.flags PROGRAM_CHUNKS
              f64_precision := testFlag e.flags CAN_DOUBLE_REPLACING
              silent_when_stopped := testFlag e.flags NO_SOUND_IN_STOP } },
           t1 ++ (t2 ++ t3))

/-- `PluginLoader::call_main` (host.rs:202-205): box a clone of the Host
Handle, store the box's address in the staging slot `load_pointer`, then
invoke the entry point with the Callback Bridge; the entry point returns the
(possibly null) Descriptor pointer. -/
def PluginLoader.call_main (pl : PluginLoader) (code : PluginCode)
    (w : World) : Ptr × World :=
  let a := allocBox w pl.host
  (code.mainReturns, { a.2 with load_pointer := a.1 })

/-- The outcome of `PluginLoader::instance`: a built instance, an explicit
load-error value returned to the caller, or a panic that unwound out of
snapshot construction. -/
inductive InstanceOutcome where
  | ok (inst : PluginInstance)
  | err (e : PluginLoadError)
  | panicked (msg : String)
  deriving Repr, DecidableEq

/-- `PluginLoader::instance` (host.rs:211-229): call the entry point; a null
Descriptor pointer is `InstanceFailed`; otherwise box a clone of the Host
Handle into the Descriptor's reserved slot and build the instance with its
Info Snapshot. Returns the outcome, the final world, and the trace of
opcodes delivered to the plugin's dispatcher. -/
def PluginLoader.instance' (pl : PluginLoader) (code : PluginCode)
    (w : World) : InstanceOutcome × World × List Int :=
  let r := PluginLoader.call_main pl code w
  let effect := r.1
  let w1 := r.2
  if effect = 0 then
    (InstanceOutcome.err PluginLoadError.InstanceFailed, w1, [])
  else
    let a := allocBox w1 pl.host
    let eRec := { a.2.effects effect with reserved1 := a.1 }
    let w2 := { a.2 with effects := upd a.2.effects effect eRec }
    match PluginInstance.new effect pl.lib code w2 with
    | (Except.ok inst, t) => (InstanceOutcome.ok inst, w2, t)
    | (Except.error msg, t) => (InstanceOutcome.panicked msg, w2, t)

/-- `impl Plugin for PluginInstance`, `init` (host.rs:302-304): dispatch the
first lifecycle opcode. -/
def PluginInstance.init (inst : PluginInstance) (code : PluginCode)
    (w : World) : Except String Int × List Int :=
  inst.opcode code w PluginOpCode.Initialize

/-- `impl Plugin for PluginInstance`, `get_info` (host.rs:306-308): clone the
stored Info Snapshot; no world is consulted because the snapshot is an owned
copy inside the instance. -/
def PluginInstance.get_info (inst : PluginInstance) : Info :=
  inst.info

/-- `impl Drop for PluginInstance` (host.rs:131-135): dispatch the Shutdown
opcode through the ordinary dispatch path. -/
def PluginInstance.drop (inst : PluginInstance) (code : PluginCode)
    (w : World) : Except String Int × List Int :=
  inst.dispatch code w PluginOpCode.Shutdown 0 0 0 0

/-- The operations an owner may perform on a live instance between
construction and release, through the `Plugin` trait surface `host.rs`
implements. -/
inductive OwnerOp where
  | init
  | get_info
  deriving Repr, DecidableEq

/-- The opcodes one owner operation delivers to the plugin. -/
def ownerOpTrace (inst : PluginInstance) (code : PluginCode) (w : World) :
    OwnerOp → List Int
  | OwnerOp.init => (PluginInstance.init inst code w).2
  | OwnerOp.get_info => []

/-- The full sequence of opcodes delivered to the plugin over an instance's
lifetime: construction (the snapshot build), then the owner's operations in
order, then the release. Rust runs `Drop::drop` exactly once when the owner
releases the value, on every exit path of the owning scope (early returns
and unwinding included); the trace records that single release as its final
segment. -/
def lifecycleTrace (effect : Ptr) (lib : Nat) (code : PluginCode) (w : World)
    (ops : List OwnerOp) : List Int :=
  match PluginInstance.new effect lib code w with
  | (Except.ok inst, t0) =>
      t0 ++ (ops.map (ownerOpTrace inst code w)).flatten
         ++ (PluginInstance.drop inst code w).2
  | (Except.error _, t0) => t0

/-- Occurrence count of an opcode number in a trace. -/
def countOc (x : Int) : List Int → Nat
  | [] => 0
  | y :: t => (if y = x then 1 else 0) + countOc x t

/-- Number of `init` calls in an owner operation list. -/
def countInitOps : List OwnerOp → Nat
  | [] => 0
  | OwnerOp.init :: t => 1 + countInitOps t
  | OwnerOp.get_info :: t => countInitOps t

/-- The Info Snapshot `PluginInstance::new` builds when the dispatcher is
non-null, written out from the Descriptor fields and the plugin behavior. -/
def builtInfo (code : PluginCode) (w : World) (effect : Ptr) : Info :=
  { name := (bufferAfterWrite (code.writes 48) MAX_PRODUCT_STR_LEN).takeWhile
      (fun c => c ≠ 0)
    vendor := (bufferAfterWrite (code.writes 47) MAX_VENDOR_STR_LEN).takeWhile
      (fun c => c ≠ 0)
    presets := (w.effects effect).numPrograms
    parameters := (w.effects effect).numParams
    inputs := (w.effects effect).numInputs
    outputs := (w.effects effect).numOutputs
    unique_id := (w.effects effect).uniqueId
    version := (w.effects effect).version
    category := Category.fromCode (code.dispatcherImpl effect 35 0 0 0 0)
    initial_delay := (w.effects effect).initialDelay
    preset_chunks := testFlag (w.effects effect).flags PROGRAM_CHUNKS
    f64_precision := testFlag (w.effects effect).flags CAN_DOUBLE_REPLACING
    silent_when_stopped := testFlag (w.effects effect).flags NO_SOUND_IN_STOP }

/-- The world after `instance'` has staged the host (first fresh box) and
populated the Descriptor's reserved slot (second fresh box): the state in
which the snapshot is built. -/
def reservedWorld (pl : PluginLoader) (w : World) (effect : Ptr) : World :=
  { load_pointer := w.nextPtr + 1
    effects := upd w.effects effect
      ({ w.effects effect with reserved1 := w.nextPtr + 2 })
    boxes := upd (upd w.boxes (w.nextPtr + 1) pl.host) (w.nextPtr + 2) pl.host
    poisoned := w.poisoned
    nextPtr := w.nextPtr + 2 }

lemma countOc_append (x : Int) (l1 l2 : List Int) :
    countOc x (l1 ++ l2) = countOc x l1 + countOc x l2 := by
  induction l1 with
  | nil => simp [countOc]
  | cons a t ih => simp [countOc, ih]; omega

lemma new_ok (effect : Ptr) (lib : Nat) (code : PluginCode) (w : World)
    (hd : (w.effects effect).dispatcher ≠ 0) :
    PluginInstance.new effect lib code w =
      (Except.ok
        { effect := effect, lib := lib, info := builtInfo code w effect },
       [48, 47, 35]) := by
  simp [PluginInstance.new, PluginInstance.read_string, PluginInstance.opcode,
    PluginInstance.dispatch, hd, builtInfo, PluginOpCode.toI32]

lemma init_trace (inst : PluginInstance) (code : PluginCode) (w : World)
    (hd : (w.effects inst.effect).dispatcher ≠ 0) :
    PluginInstance.init inst code w =
      (Except.ok (code.dispatcherImpl inst.effect 0 0 0 0 0), [0]) := by
  simp [PluginInstance.init, PluginInstance.opcode, PluginInstance.dispatch,
    hd, PluginOpCode.toI32]

lemma drop_trace (inst : PluginInstance) (code : PluginCode) (w : World)
    (hd : (w.effects inst.effect).dispatcher ≠ 0) :
    PluginInstance.drop inst code w =
      (Except.ok (code.dispatcherImpl inst.effect 1 0 0 0 0), [1]) := by
  simp [PluginInstance.drop, PluginInstance.dispatch, hd, PluginOpCode.toI32]

lemma countOc_join_ownerOps (inst : PluginInstance) (code : PluginCode)
    (w : World) (x : Int) (ops : List OwnerOp) :
    countOc x ((ops.map (ownerOpTrace inst code w)).flatten) =
      countInitOps ops * countOc x ((PluginInstance.init inst code w).2) := by
  induction ops with
  | nil => simp [countOc, countInitOps]
  | cons op t ih =>
    cases op with
    | init =>
      simp [countInitOps, ownerOpTrace, countOc_append, ih]
      ring
    | get_info =>
      simp [countInitOps, ownerOpTrace, countOc_append, ih, countOc]

lemma instance'_eq (pl : PluginLoader) (code : PluginCode) (w : World)
    (h0 : code.mainReturns ≠ 0) :
    PluginLoader.instance' pl code w =
      ((match (PluginInstance.new code.mainReturns pl.lib code
            (reservedWorld pl w code.mainReturns)).1 with
        | Except.ok inst => InstanceOutcome.ok inst
        | Except.error msg => InstanceOutcome.panicked msg),
       reservedWorld pl w code.mainReturns,
       (PluginInstance.new code.mainReturns pl.lib code
          (reservedWorld pl w code.mainReturns)).2) := by
  have : PluginLoader.call_main pl code w =
      (code.mainReturns,
       { load_pointer := w.nextPtr + 1
         effects := w.effects
         boxes := upd w.boxes (w.nextPtr + 1) pl.host
         poisoned := w.poisoned
         nextPtr := w.nextPtr + 1 }) := rfl
  simp only [PluginLoader.instance', this, h0, if_neg, allocBox,
    reservedWorld]
  rcases hn : PluginInstance.new code.mainReturns pl.lib code
      { load_pointer := w.nextPtr + 1
        effects := upd w.effects code.mainReturns
          ({ w.effects code.mainReturns with reserved1 := w.nextPtr + 2 })
        boxes := upd (upd w.boxes (w.nextPtr + 1) pl.host) (w.nextPtr + 2)
          pl.host
        poisoned := w.poisoned
        nextPtr := w.nextPtr + 2 } with ⟨res, t⟩
  cases res <;> simp

/-! Concrete fixtures used by the closed evaluation checks. -/

/-- A sample Descriptor with a non-null dispatcher and a populated reserved
slot. -/
def sampleEffect : AEffect :=
  { numPrograms := 3, numParams := 4, numInputs := 2, numOutputs := 2,
    uniqueId := 1234, version := 1000, initialDelay := 5, flags := 32,
    reserved1 := 9, dispatcher := 7 }

/-- A sample Descriptor whose dispatcher pointer is null and whose reserved
slot is unpopulated. -/
def nullDispEffect : AEffect :=
  { sampleEffect with dispatcher := 0, reserved1 := 0 }

/-- A world for concrete checks: Descriptor `5` is `sampleEffect`,
every other address reads as `nullDispEffect`, no lock is poisoned. -/
def sampleWorld : World :=
  { load_pointer := 0
    effects := fun p => if p = 5 then sampleEffect else nullDispEffect
    boxes := fun _ => 0
    poisoned := fun _ => false
    nextPtr := 10 }

/-- Plugin behavior for concrete checks: the entry point returns Descriptor
`5`, the dispatcher replies with the opcode plus 100, and the name opcodes
write short strings. -/
def sampleCode : PluginCode :=
  { mainReturns := 5
    dispatcherImpl := fun _ op _ _ _ _ => op + 100
    writes := fun op =>
      if op = 48 then [65, 66] else if op = 47 then [67] else [] }

/-- A sample loader value: host identity 42, library identity 11. -/
def samplePl : PluginLoader := { main := 3, lib := 11, host := 42 }

/-- Host objects for concrete checks: every host replies 0. -/
def sampleHosts : Nat → HostObj :=
  fun _ => { replyTo := fun _ _ _ _ _ _ => 0 }

/-- `sampleWorld` with every host lock poisoned. -/
def poisonedWorld : World :=
  { sampleWorld with poisoned := fun _ => true }

/-! Claim theorems. -/

/-- C1: resolution of the Host Handle by the Callback Bridge. If the
descriptor pointer is non-null and its reserved slot is populated, the bridge
resolves the handle from the reserved slot, whatever the staging slot
currently holds (so never a stale staging value); otherwise it resolves from
the staging slot, which immediately after `call_main` of the in-progress
instantiation holds a box of that loader's host — also when a previous
instantiation staged a different host before (the most recent write wins). -/
theorem c1_bridge_resolution (pl1 pl2 : PluginLoader)
    (code1 code2 : PluginCode) (w : World) (e : Ptr) :
    (e ≠ 0 → (w.effects e).reserved1 ≠ 0 →
      ∀ lp : Ptr, resolve_host { w with load_pointer := lp } e =
        (w.effects e).reserved1) ∧
    (e = 0 ∨ (w.effects e).reserved1 = 0 →
      (PluginLoader.call_main pl2 code2 w).2.boxes
        (resolve_host (PluginLoader.call_main pl2 code2 w).2 e) = pl2.host) ∧
    (e = 0 ∨ (w.effects e).reserved1 = 0 →
      (PluginLoader.call_main pl2 code2
          (PluginLoader.call_main pl1 code1 w).2).2.boxes
        (resolve_host (PluginLoader.call_main pl2 code2
          (PluginLoader.call_main pl1 code1 w).2).2 e) = pl2.host) := by
  refine ⟨?_, ?_, ?_⟩
  · intro h1 h2 lp
    simp [resolve_host, h1, h2]
  · rintro (h | h) <;>
      simp [PluginLoader.call_main, allocBox, resolve_host, upd, h]
  · rintro (h | h) <;>
      simp [PluginLoader.call_main, allocBox, resolve_host, upd, h]

/-- Concrete check of the C1 theorem: steady-state resolution at Descriptor 5
ignores a staging slot holding 77 and returns reserved slot 9; bootstrap
resolution for a null descriptor pointer right after `call_main` reaches host
42, the host staged by the in-progress instantiation. -/
theorem c1_bridge_resolution_check :
    resolve_host { sampleWorld with load_pointer := 77 } 5 = 9 ∧
    (PluginLoader.call_main samplePl sampleCode sampleWorld).2.boxes
      (resolve_host (PluginLoader.call_main samplePl sampleCode sampleWorld).2
        0) = 42 := by
  constructor
  · exact ((c1_bridge_resolution samplePl samplePl sampleCode sampleCode
      sampleWorld 5).1 (by decide) (by decide) 77).trans (by decide)
  · exact ((c1_bridge_resolution samplePl samplePl sampleCode sampleCode
      sampleWorld 0).2.1 (Or.inl rfl)).trans (by decide)

/-- C2: exactly one Shutdown dispatch (i32 opcode 1) is delivered to the
plugin over an instance's lifetime: construction delivers none, no owner
operation delivers one however many times `init` is or is not called, and
the single release at the end of the owning scope delivers exactly one.
Stated for instances whose dispatcher pointer is non-null; the null case is
claim C10, where the dispatch call panics before reaching the plugin. -/
theorem c2_shutdown_exactly_once (effect : Ptr) (lib : Nat)
    (code : PluginCode) (w : World) (ops : List OwnerOp)
    (hd : (w.effects effect).dispatcher ≠ 0) :
    countOc (PluginOpCode.toI32 PluginOpCode.Shutdown)
      (lifecycleTrace effect lib code w ops) = 1 := by
  unfold lifecycleTrace
  rw [new_ok effect lib code w hd]
  rw [countOc_append, countOc_append,
    countOc_join_ownerOps, init_trace _ code w hd, drop_trace _ code w hd]
  simp [countOc, PluginOpCode.toI32]

/-- Concrete check of the C2 theorem: a lifecycle with no owner operation and
one with two `init` calls each deliver exactly one Shutdown. -/
theorem c2_shutdown_exactly_once_check :
    countOc 1 (lifecycleTrace 5 11 sampleCode sampleWorld []) = 1 ∧
    countOc 1 (lifecycleTrace 5 11 sampleCode sampleWorld
      [OwnerOp.init, OwnerOp.get_info, OwnerOp.init]) = 1 := by
  constructor
  · exact c2_shutdown_exactly_once 5 11 sampleCode sampleWorld [] (by decide)
  · exact c2_shutdown_exactly_once 5 11 sampleCode sampleWorld
      [OwnerOp.init, OwnerOp.get_info, OwnerOp.init] (by decide)

/-- C3: the load-time error taxonomy, each failure an explicit value handed
to the caller: `InvalidPath` exactly when the library cannot be opened,
`NotAPlugin` exactly when it opens but exports no "VSTPluginMain" symbol,
and `InstanceFailed` exactly when the entry point returns a null Descriptor
pointer. -/
theorem c3_error_taxonomy (lib : NativeLibrary) (host : Nat)
    (pl : PluginLoader) (code : PluginCode) (w : World) :
    (PluginLoader.load lib host = Except.error PluginLoadError.InvalidPath ↔
      lib.openable = false) ∧
    (PluginLoader.load lib host = Except.error PluginLoadError.NotAPlugin ↔
      lib.openable = true ∧ lib.symbols "VSTPluginMain" = none) ∧
    ((PluginLoader.instance' pl code w).1 =
        InstanceOutcome.err PluginLoadError.InstanceFailed ↔
      code.mainReturns = 0) := by
  refine ⟨?_, ?_, ?_⟩
  · by_cases ho : lib.openable
    · rcases hs : lib.symbols "VSTPluginMain" with _ | m <;>
        simp [PluginLoader.load, ho, hs]
    · simp [PluginLoader.load, ho]
  · by_cases ho : lib.openable
    · rcases hs : lib.symbols "VSTPluginMain" with _ | m <;>
        simp [PluginLoader.load, ho, hs]
    · simp [PluginLoader.load, ho]
  · by_cases h0 : code.mainReturns = 0
    · simp [PluginLoader.instance', PluginLoader.call_main, allocBox, h0]
    · rw [instance'_eq pl code w h0]
      rcases hn : (PluginInstance.new code.mainReturns pl.lib code
          (reservedWorld pl w code.mainReturns)).1 with m | i <;>
        simp [hn, h0]

/-- C4, counterexample: an internal failure of the bridge is not caught. With
the resolved host's lock poisoned, `lock().unwrap()` panics and
`callback_wrapper` lets the panic unwind out (the `Except.error` side), so no
neutral reply is returned to the plugin. -/
theorem c4_panic_escapes_bridge :
    callback_wrapper sampleHosts poisonedWorld 0 1 0 0 0 0 =
      Except.error "PoisonError" := rfl

/-- C4, amended: the bridge performs no catching of internal failures. Its
reply equals the host's reply when the resolved host's lock is healthy, and
a failed lock acquisition (poisoned mutex) produces a panic that unwinds out
of the bridge across the ABI boundary instead of a neutral reply. -/
theorem c4_bridge_no_catch (hosts : Nat → HostObj) (w : World) (effect : Ptr)
    (op : Int) (i : Int) (v : Int) (p : Ptr) (o : F32) :
    callback_wrapper hosts w effect op i v p o =
      (if w.poisoned (w.boxes (resolve_host w effect)) then
        Except.error "PoisonError"
      else
        Except.ok (host_dispatch (hosts (w.boxes (resolve_host w effect)))
          effect op i v p o)) := by
  by_cases h : effect ≠ 0 ∧ (w.effects effect).reserved1 ≠ 0 <;>
    simp [callback_wrapper, resolve_host, lockAndDispatch, h]

/-- C5: host-to-plugin dispatch. A null dispatcher function-pointer is a
panic — the Rust function returns a plain `isize`, so there is no error
value to report, and the plugin is never invoked; a non-null dispatcher is
called synchronously with the five arguments plus the Descriptor pointer
itself and its reply is returned unmodified. -/
theorem c5_dispatch_contract (inst : PluginInstance) (code : PluginCode)
    (w : World) (op : PluginOpCode) (i : Int) (v : Int) (p : Ptr) (o : F32) :
    ((w.effects inst.effect).dispatcher = 0 →
      PluginInstance.dispatch inst code w op i v p o =
        (Except.error "Plugin was not loaded correctly.", [])) ∧
    ((w.effects inst.effect).dispatcher ≠ 0 →
      PluginInstance.dispatch inst code w op i v p o =
        (Except.ok (code.dispatcherImpl inst.effect (PluginOpCode.toI32 op)
            i v p o),
         [PluginOpCode.toI32 op])) := by
  constructor
  · intro h
    simp [PluginInstance.dispatch, h]
  · intro h
    simp [PluginInstance.dispatch, h]

/-- Concrete check of the C5 theorem: dispatch on a Descriptor with a null
dispatcher panics without reaching the plugin; on Descriptor 5 it returns
the plugin's reply 101 for Shutdown (opcode 1) unmodified. -/
theorem c5_dispatch_contract_check :
    PluginInstance.dispatch { effect := 6, lib := 11, info := default }
        sampleCode sampleWorld PluginOpCode.Shutdown 0 0 0 0 =
      (Except.error "Plugin was not loaded correctly.", []) ∧
    PluginInstance.dispatch { effect := 5, lib := 11, info := default }
        sampleCode sampleWorld PluginOpCode.Shutdown 2 3 4 5 =
      (Except.ok 101, [1]) := by
  constructor
  · exact (c5_dispatch_contract { effect := 6, lib := 11, info := default }
      sampleCode sampleWorld PluginOpCode.Shutdown 0 0 0 0).1 (by decide)
  · exact ((c5_dispatch_contract { effect := 5, lib := 11, info := default }
      sampleCode sampleWorld PluginOpCode.Shutdown 2 3 4 5).2
        (by decide)).trans (by rfl)

lemma zero_not_mem_truncAtNull (l : List Nat) :
    (0 : Nat) ∉ l.takeWhile (fun c => c ≠ 0) := by
  intro hmem
  have h := List.mem_takeWhile_imp hmem
  simp at h

lemma length_takeWhile_le' (p : Nat → Bool) (l : List Nat) :
    (l.takeWhile p).length ≤ l.length := by
  induction l with
  | nil => simp [List.takeWhile]
  | cons a t ih =>
    by_cases hp : p a
    · simp [List.takeWhile_cons, hp]
      omega
    · simp [List.takeWhile_cons, hp]

lemma bufferAfterWrite_length (written : List Nat) (max : Nat) :
    (bufferAfterWrite written max).length = max := by
  simp [bufferAfterWrite]
  omega

lemma truncAtNull_length_le (written : List Nat) (max : Nat) :
    ((bufferAfterWrite written max).takeWhile (fun c => c ≠ 0)).length ≤
      max := by
  calc ((bufferAfterWrite written max).takeWhile (fun c => c ≠ 0)).length
      ≤ (bufferAfterWrite written max).length := length_takeWhile_le' _ _
    _ = max := bufferAfterWrite_length written max

/-- C6: after successful instantiation every numeric field of the Info
Snapshot equals the corresponding raw Descriptor field as read at
instantiation time, and the snapshot is an owned copy: `get_info` consults
no world at all, so for every later world `_w'` — however the Descriptor was
mutated in the meantime — the values returned are still the ones read at
creation from `w`. -/
theorem c6_snapshot_matches_descriptor (effect : Ptr) (lib : Nat)
    (code : PluginCode) (w : World)
    (hd : (w.effects effect).dispatcher ≠ 0) :
    ∃ inst t, PluginInstance.new effect lib code w = (Except.ok inst, t) ∧
      ∀ _w' : World,
        inst.get_info.presets = (w.effects effect).numPrograms ∧
        inst.get_info.parameters = (w.effects effect).numParams ∧
        inst.get_info.inputs = (w.effects effect).numInputs ∧
        inst.get_info.outputs = (w.effects effect).numOutputs ∧
        inst.get_info.unique_id = (w.effects effect).uniqueId ∧
        inst.get_info.version = (w.effects effect).version ∧
        inst.get_info.initial_delay = (w.effects effect).initialDelay := by
  refine ⟨_, _, new_ok effect lib code w hd, fun _ => ?_⟩
  simp [PluginInstance.get_info, builtInfo]

/-- Concrete check of the C6 theorem on the sample Descriptor. -/
theorem c6_snapshot_matches_descriptor_check :
    ∃ inst t,
      PluginInstance.new 5 11 sampleCode sampleWorld = (Except.ok inst, t) ∧
      ∀ _w' : World,
        inst.get_info.presets = (sampleWorld.effects 5).numPrograms ∧
        inst.get_info.parameters = (sampleWorld.effects 5).numParams ∧
        inst.get_info.inputs = (sampleWorld.effects 5).numInputs ∧
        inst.get_info.outputs = (sampleWorld.effects 5).numOutputs ∧
        inst.get_info.unique_id = (sampleWorld.effects 5).uniqueId ∧
        inst.get_info.version = (sampleWorld.effects 5).version ∧
        inst.get_info.initial_delay = (sampleWorld.effects 5).initialDelay :=
  c6_snapshot_matches_descriptor 5 11 sampleCode sampleWorld (by decide)

/-- C7: on every successful `instance` call the Host Handle is boxed into the
Descriptor's reserved slot before the Info Snapshot is built: the final world
is `reservedWorld` (staging write, then reserved-slot write), the snapshot
is exactly the one `PluginInstance::new` builds in that already-populated
world, where bridge resolution is already steady-state, and the result owns
the Descriptor pointer, the loader's Library Handle, and the snapshot. -/
theorem c7_instance_protocol (pl : PluginLoader) (code : PluginCode)
    (w : World) (h0 : code.mainReturns ≠ 0)
    (hd : (w.effects code.mainReturns).dispatcher ≠ 0) :
    ∃ inst t,
      PluginLoader.instance' pl code w =
        (InstanceOutcome.ok inst, reservedWorld pl w code.mainReturns, t) ∧
      inst.effect = code.mainReturns ∧
      inst.lib = pl.lib ∧
      ((reservedWorld pl w code.mainReturns).effects inst.effect).reserved1 ≠
        0 ∧
      (reservedWorld pl w code.mainReturns).boxes
        (((reservedWorld pl w code.mainReturns).effects
          inst.effect).reserved1) = pl.host ∧
      (PluginInstance.new inst.effect pl.lib code
        (reservedWorld pl w code.mainReturns)).1 = Except.ok inst ∧
      resolve_host (reservedWorld pl w code.mainReturns) inst.effect =
        ((reservedWorld pl w code.mainReturns).effects
          inst.effect).reserved1 := by
  have hre : (reservedWorld pl w code.mainReturns).effects code.mainReturns =
      { w.effects code.mainReturns with reserved1 := w.nextPtr + 2 } := by
    simp [reservedWorld, upd]
  have hd2 : ((reservedWorld pl w code.mainReturns).effects
      code.mainReturns).dispatcher ≠ 0 := by
    rw [hre]
    exact hd
  have hnew := new_ok code.mainReturns pl.lib code
      (reservedWorld pl w code.mainReturns) hd2
  refine ⟨{ effect := code.mainReturns, lib := pl.lib,
            info := builtInfo code (reservedWorld pl w code.mainReturns)
              code.mainReturns },
          [48, 47, 35], ?_, rfl, rfl, ?_, ?_, ?_, ?_⟩
  · rw [instance'_eq pl code w h0, hnew]
  · rw [hre]
    simp
  · rw [hre]
    simp [reservedWorld, upd]
  · show (PluginInstance.new code.mainReturns pl.lib code
      (reservedWorld pl w code.mainReturns)).1 = _
    rw [hnew]
  · show resolve_host (reservedWorld pl w code.mainReturns)
      code.mainReturns = _
    rw [resolve_host, hre]
    simp [h0]

/-- Concrete check of the C7 theorem on the sample loader, plugin behavior
and world. -/
theorem c7_instance_protocol_check :
    ∃ inst t,
      PluginLoader.instance' samplePl sampleCode sampleWorld =
        (InstanceOutcome.ok inst,
         reservedWorld samplePl sampleWorld sampleCode.mainReturns, t) ∧
      inst.effect = sampleCode.mainReturns ∧
      inst.lib = samplePl.lib ∧
      ((reservedWorld samplePl sampleWorld sampleCode.mainReturns).effects
        inst.effect).reserved1 ≠ 0 ∧
      (reservedWorld samplePl sampleWorld sampleCode.mainReturns).boxes
        (((reservedWorld samplePl sampleWorld
          sampleCode.mainReturns).effects inst.effect).reserved1) =
        samplePl.host ∧
      (PluginInstance.new inst.effect samplePl.lib sampleCode
        (reservedWorld samplePl sampleWorld sampleCode.mainReturns)).1 =
        Except.ok inst ∧
      resolve_host (reservedWorld samplePl sampleWorld
          sampleCode.mainReturns) inst.effect =
        ((reservedWorld samplePl sampleWorld
          sampleCode.mainReturns).effects inst.effect).reserved1 :=
  c7_instance_protocol samplePl sampleCode sampleWorld (by decide) (by decide)

lemma new_trace_no_init (effect : Ptr) (lib : Nat) (code : PluginCode)
    (w : World) :
    countOc 0 ((PluginInstance.new effect lib code w).2) = 0 := by
  by_cases hd : (w.effects effect).dispatcher = 0
  · simp [PluginInstance.new, PluginInstance.read_string,
      PluginInstance.dispatch, hd, countOc]
  · rw [new_ok effect lib code w hd]
    simp [countOc]

lemma instance'_trace_no_init (pl : PluginLoader) (code : PluginCode)
    (w : World) :
    countOc 0 ((PluginLoader.instance' pl code w).2.2) = 0 := by
  by_cases h0 : code.mainReturns = 0
  · simp [PluginLoader.instance', PluginLoader.call_main, allocBox, h0,
      countOc]
  · rw [instance'_eq pl code w h0]
    exact new_trace_no_init _ _ _ _

/-- C8: the first-lifecycle opcode (i32 value 0) is dispatched only by an
explicit `init` call: `load` performs no dispatch at all, `instance` and
snapshot construction deliver none, a lifecycle delivers exactly as many as
the owner's `init` calls, and in particular exactly one when the owner calls
`init` exactly once. -/
theorem c8_init_dispatch_discipline (pl : PluginLoader) (codeI : PluginCode)
    (wI : World) (effect : Ptr) (lib : Nat) (code : PluginCode) (w : World)
    (ops : List OwnerOp) (hd : (w.effects effect).dispatcher ≠ 0) :
    countOc (PluginOpCode.toI32 PluginOpCode.Initialize)
        ((PluginLoader.instance' pl codeI wI).2.2) = 0 ∧
    countOc (PluginOpCode.toI32 PluginOpCode.Initialize)
        (lifecycleTrace effect lib code w ops) = countInitOps ops ∧
    (countInitOps ops = 1 →
      countOc (PluginOpCode.toI32 PluginOpCode.Initialize)
        (lifecycleTrace effect lib code w ops) = 1) := by
  have hmain : countOc 0 ((PluginLoader.instance' pl codeI wI).2.2) = 0 :=
    instance'_trace_no_init pl codeI wI
  have hlife : countOc 0 (lifecycleTrace effect lib code w ops) =
      countInitOps ops := by
    unfold lifecycleTrace
    rw [new_ok effect lib code w hd]
    rw [countOc_append, countOc_append, countOc_join_ownerOps,
      init_trace _ code w hd, drop_trace _ code w hd]
    simp [countOc]
  refine ⟨hmain, hlife, fun h1 => ?_⟩
  show countOc 0 (lifecycleTrace effect lib code w ops) = 1
  rw [hlife, h1]

/-- Concrete check of the C8 theorem: the sample instantiation delivers no
opcode 0, and a lifecycle with exactly one `init` call delivers it exactly
once. -/
theorem c8_init_dispatch_discipline_check :
    countOc 0 ((PluginLoader.instance' samplePl sampleCode
      sampleWorld).2.2) = 0 ∧
    countOc 0 (lifecycleTrace 5 11 sampleCode sampleWorld
      [OwnerOp.init, OwnerOp.get_info]) = 1 := by
  have h := c8_init_dispatch_discipline samplePl sampleCode sampleWorld 5 11
    sampleCode sampleWorld [OwnerOp.init, OwnerOp.get_info] (by decide)
  exact ⟨h.1, h.2.2 (by decide)⟩

/-- C9: the Descriptor Interpreter retrieves the product-name and
vendor-name strings by dispatching exactly one opcode each (48 then 47, the
first two entries of the construction trace) into a fixed-capacity buffer,
and each resulting snapshot string is the buffer content truncated at the
first null terminator: it contains no null byte and never exceeds the fixed
capacity. -/
theorem c9_name_strings (effect : Ptr) (lib : Nat) (code : PluginCode)
    (w : World) (hd : (w.effects effect).dispatcher ≠ 0) :
    ∃ inst t,
      PluginInstance.new effect lib code w = (Except.ok inst, t) ∧
      t = [PluginOpCode.toI32 PluginOpCode.GetProductName,
           PluginOpCode.toI32 PluginOpCode.GetVendorName,
           PluginOpCode.toI32 PluginOpCode.GetCategory] ∧
      inst.info.name = (bufferAfterWrite
          (code.writes (PluginOpCode.toI32 PluginOpCode.GetProductName))
          MAX_PRODUCT_STR_LEN).takeWhile (fun c => c ≠ 0) ∧
      inst.info.vendor = (bufferAfterWrite
          (code.writes (PluginOpCode.toI32 PluginOpCode.GetVendorName))
          MAX_VENDOR_STR_LEN).takeWhile (fun c => c ≠ 0) ∧
      (0 : Nat) ∉ inst.info.name ∧
      inst.info.name.length ≤ MAX_PRODUCT_STR_LEN ∧
      (0 : Nat) ∉ inst.info.vendor ∧
      inst.info.vendor.length ≤ MAX_VENDOR_STR_LEN := by
  refine ⟨_, _, new_ok effect lib code w hd, ?_, ?_, ?_, ?_, ?_, ?_, ?_⟩
  · simp [PluginOpCode.toI32]
  · simp [builtInfo, PluginOpCode.toI32]
  · simp [builtInfo, PluginOpCode.toI32]
  · exact zero_not_mem_truncAtNull _
  · exact truncAtNull_length_le _ _
  · exact zero_not_mem_truncAtNull _
  · exact truncAtNull_length_le _ _

/-- Concrete check of the C9 theorem on the sample plugin behavior. -/
theorem c9_name_strings_check :
    ∃ inst t,
      PluginInstance.new 5 11 sampleCode sampleWorld = (Except.ok inst, t) ∧
      t = [48, 47, 35] ∧
      inst.info.name = (bufferAfterWrite (sampleCode.writes 48)
          MAX_PRODUCT_STR_LEN).takeWhile (fun c => c ≠ 0) ∧
      inst.info.vendor = (bufferAfterWrite (sampleCode.writes 47)
          MAX_VENDOR_STR_LEN).takeWhile (fun c => c ≠ 0) ∧
      (0 : Nat) ∉ inst.info.name ∧
      inst.info.name.length ≤ MAX_PRODUCT_STR_LEN ∧
      (0 : Nat) ∉ inst.info.vendor ∧
      inst.info.vendor.length ≤ MAX_VENDOR_STR_LEN :=
  c9_name_strings 5 11 sampleCode sampleWorld (by decide)

/-- C10: for an instance whose Descriptor has a null dispatcher pointer, the
release goes through the very same dispatch path as every other dispatch
(first conjunct, definitional), hits the same null check, and panics with
the fatal message while the plugin never receives the Shutdown opcode (empty
trace): the guaranteed cleanup hook panics instead of completing. -/
theorem c10_drop_panics_on_null_dispatcher (inst : PluginInstance)
    (code : PluginCode) (w : World)
    (hd : (w.effects inst.effect).dispatcher = 0) :
    PluginInstance.drop inst code w =
        PluginInstance.dispatch inst code w PluginOpCode.Shutdown 0 0 0 0 ∧
    (PluginInstance.drop inst code w).1 =
        Except.error "Plugin was not loaded correctly." ∧
    (PluginInstance.drop inst code w).2 = [] := by
  refine ⟨rfl, ?_, ?_⟩ <;>
    simp [PluginInstance.drop, PluginInstance.dispatch, hd]

/-- Concrete check of the C10 theorem on a Descriptor with a null
dispatcher. -/
theorem c10_drop_panics_on_null_dispatcher_check :
    PluginInstance.drop { effect := 6, lib := 11, info := default }
        sampleCode sampleWorld =
      PluginInstance.dispatch { effect := 6, lib := 11, info := default }
        sampleCode sampleWorld PluginOpCode.Shutdown 0 0 0 0 ∧
    (PluginInstance.drop { effect := 6, lib := 11, info := default }
        sampleCode sampleWorld).1 =
      Except.error "Plugin was not loaded correctly." ∧
    (PluginInstance.drop { effect := 6, lib := 11, info := default }
        sampleCode sampleWorld).2 = [] :=
  c10_drop_panics_on_null_dispatcher
    { effect := 6, lib := 11, info := default } sampleCode sampleWorld
    (by decide)

end Vst2Host
